import Mathlib

/-!
Shallow embedding of the homework status bot (`homework.py`, `exceptions.py`):
a JSON-like value type `PyVal`, the exception taxonomy `PyErr`, the pure
operations `check_tokens`, `get_api_answer`, `check_response`, `parse_status`,
and an explicit-state model of the polling loop body of `main`, together with
theorems settling the specification claims.
-/

/-- Values of the dynamic language: `None`, integers, strings, lists and
string-keyed dictionaries (the shapes that occur in parsed JSON responses). -/
inductive PyVal where
  | none : PyVal
  | int : Int → PyVal
  | str : String → PyVal
  | list : List PyVal → PyVal
  | dict : List (String × PyVal) → PyVal

/-- The exception kinds raised by the program: `TypeError`, `KeyError`,
`ValueError`, the custom `APIRequestError` and `APIResponseError` from
`exceptions.py`, the telebot `ApiException`, and `IndexError`. -/
inductive PyErr where
  | typeError : String → PyErr
  | keyError : String → PyErr
  | valueError : String → PyErr
  | apiRequestError : String → PyErr
  | apiResponseError : String → PyErr
  | apiException : String → PyErr
  | indexError : String → PyErr
deriving DecidableEq

/-- `isinstance(v, dict)`. -/
def PyVal.isDict : PyVal → Bool
  | .dict _ => true
  | _ => false

/-- `isinstance(v, list)`. -/
def PyVal.isList : PyVal → Bool
  | .list _ => true
  | _ => false

/-- `isinstance(v, int)`. -/
def PyVal.isInt : PyVal → Bool
  | .int _ => true
  | _ => false

/-- Python truthiness: `None`, `0`, `""`, `[]` and empty dicts are falsy. -/
def pyTruthy : PyVal → Bool
  | .none => false
  | .int n => n != 0
  | .str s => s != ""
  | .list l => !l.isEmpty
  | .dict d => !d.isEmpty

/-- Key lookup in a dictionary represented as an association list. -/
def dictFind (d : List (String × PyVal)) (key : String) : Option PyVal :=
  match d.find? (fun p => p.1 == key) with
  | some p => some p.2
  | Option.none => Option.none

/-- `key in d` for a dictionary. -/
def hasKey (d : List (String × PyVal)) (key : String) : Bool :=
  (dictFind d key).isSome

/-- `xs` occurs as a prefix of `ys` (character lists). -/
def listIsPre : List Char → List Char → Bool
  | [], _ => true
  | _ :: _, [] => false
  | a :: as, b :: bs => a == b && listIsPre as bs

/-- `pat` occurs as a contiguous sublist of `ys` (character lists). -/
def listHasSub (pat : List Char) : List Char → Bool
  | [] => pat.isEmpty
  | c :: rest => listIsPre pat (c :: rest) || listHasSub pat rest

/-- `pat in s` for strings (substring test). -/
def strContainsSub (s pat : String) : Bool :=
  listHasSub pat.toList s.toList

/-- `key in v`: key membership for dicts, element membership for lists
(a string key only equals string elements), substring test for strings;
other values are not iterable and raise `TypeError`. -/
def pyContainsStr (v : PyVal) (key : String) : Except PyErr Bool :=
  match v with
  | .dict d => .ok (hasKey d key)
  | .list l => .ok (l.any (fun x => match x with | .str s => s == key | _ => false))
  | .str s => .ok (strContainsSub s key)
  | _ => .error (.typeError "argument is not iterable")

/-- `v[key]` subscription with a string key. -/
def pyGetItem (v : PyVal) (key : String) : Except PyErr PyVal :=
  match v with
  | .dict d =>
    match dictFind d key with
    | some x => .ok x
    | Option.none => .error (.keyError key)
  | .list _ => .error (.typeError "list indices must be integers or slices, not str")
  | .str _ => .error (.typeError "string indices must be integers")
  | _ => .error (.typeError "object is not subscriptable")

/-- `v[i]` subscription of a list with a nonnegative integer index. -/
def pyIndex (v : PyVal) (i : Nat) : Except PyErr PyVal :=
  match v with
  | .list l =>
    match l.get? i with
    | some x => .ok x
    | Option.none => .error (.indexError "list index out of range")
  | _ => .error (.typeError "object is not subscriptable")

/-- `d.get(key, dflt)` specialised to the integer-valued use in `main`
(`response.get(\x27current_date\x27, timestamp)`); in every reachable use the
looked-up value has already been validated to be an integer. -/
def pyGetD (v : PyVal) (key : String) (dflt : Int) : Int :=
  match v with
  | .dict d =>
    match dictFind d key with
    | some (.int n) => n
    | _ => dflt
  | _ => dflt

mutual
/-- Python `repr` of a value (the shapes in this model). -/
def pyRepr : PyVal → String
  | .none => "None"
  | .int n => toString n
  | .str s => "\x27" ++ s ++ "\x27"
  | .list l => "[" ++ pyReprList l ++ "]"
  | .dict d => "\x7b" ++ pyReprDict d ++ "\x7d"

/-- `repr` of list elements, comma separated. -/
def pyReprList : List PyVal → String
  | [] => ""
  | [x] => pyRepr x
  | x :: xs => pyRepr x ++ ", " ++ pyReprList xs

/-- `repr` of dict entries, comma separated. -/
def pyReprDict : List (String × PyVal) → String
  | [] => ""
  | [p] => "\x27" ++ p.1 ++ "\x27: " ++ pyRepr p.2
  | p :: ps => "\x27" ++ p.1 ++ "\x27: " ++ pyRepr p.2 ++ ", " ++ pyReprDict ps
end

/-- Python `str` of a value: strings render without quotes, everything else as
its `repr`. -/
def pyStr : PyVal → String
  | .str s => s
  | v => pyRepr v

/-- `str(error)`: a `KeyError` renders as the `repr` of its argument (single
quotes around the message); every other kind renders its message directly. -/
def errStr : PyErr → String
  | .typeError m => m
  | .keyError m => "\x27" ++ m ++ "\x27"
  | .valueError m => m
  | .apiRequestError m => m
  | .apiResponseError m => m
  | .apiException m => m
  | .indexError m => m

/-- The fixed verdict table `HOMEWORK_VERDICTS`. -/
def HOMEWORK_VERDICTS : List (String × String) :=
  [("approved", "Работа проверена: ревьюеру всё понравилось. Ура!"),
   ("reviewing", "Работа взята на проверку ревьюером."),
   ("rejected", "Работа проверена: у ревьюера есть замечания.")]

/-- Verdict lookup `HOMEWORK_VERDICTS[status]`; `Option.none` when the status
is not a string or is not a key of the table. -/
def verdictOf (status : PyVal) : Option String :=
  match status with
  | .str s =>
    match HOMEWORK_VERDICTS.find? (fun p => p.1 == s) with
    | some p => some p.2
    | Option.none => Option.none
  | _ => Option.none

/-- The three required environment variables read at module load. -/
structure Environ where
  PRACTICUM_TOKEN : Option String
  TELEGRAM_TOKEN : Option String
  TELEGRAM_CHAT_ID : Option String
deriving DecidableEq

/-- The `required_vars` dictionary built inside `check_tokens`, in insertion
order. -/
def required_vars (env : Environ) : List (String × Option String) :=
  [("PRACTICUM_TOKEN", env.PRACTICUM_TOKEN),
   ("TELEGRAM_TOKEN", env.TELEGRAM_TOKEN),
   ("TELEGRAM_CHAT_ID", env.TELEGRAM_CHAT_ID)]

/-- Python falsiness of an optional string value: absent (`None`) or empty. -/
def pyFalsyStr : Option String → Bool
  | Option.none => true
  | some s => s == ""

/-- `check_tokens`: the names of the required environment variables whose
value is absent or empty, in declaration order. -/
def check_tokens (env : Environ) : List String :=
  ((required_vars env).filter (fun p => pyFalsyStr p.2)).map (fun p => p.1)

/-- Outcome of the single HTTP GET issued by `get_api_answer`: either a
transport-level failure (`requests.RequestException`) with its description, or
a response carrying a status code, a body text, and the result of JSON-parsing
the body (`.error` holds the decode-failure description). -/
inductive HttpResult where
  | transportError (desc : String)
  | response (status : Int) (text : String) (json : Except String PyVal)

/-- `get_api_answer`: a transport failure or a JSON-decode failure (both
`requests.RequestException`) becomes `APIRequestError`; a status code other
than 200 becomes `APIResponseError` carrying the code and body text; on 200
the parsed JSON body is returned unvalidated. -/
def get_api_answer (timestamp : Int) (http : HttpResult) : Except PyErr PyVal :=
  match timestamp, http with
  | _, .transportError desc =>
    .error (.apiRequestError ("Ошибка соединения: " ++ desc ++ "."))
  | _, .response status text json =>
    if status ≠ 200 then
      .error (.apiResponseError ("Ошибка запроса: " ++ toString status ++ " — " ++ text ++ "."))
    else
      match json with
      | .ok v => .ok v
      | .error desc => .error (.apiRequestError ("Ошибка соединения: " ++ desc ++ "."))

/-- `check_response`: the top-level value must be a dict, the key `homeworks`
must be present and hold a list, the key `current_date` must be present and
hold an integer; checks run in that order and stop at the first violation. -/
def check_response (response : PyVal) : Except PyErr Unit :=
  match response with
  | .dict d =>
    if !hasKey d "homeworks" then
      .error (.keyError "Отсутствует ключ \"homeworks\" в ответе API.")
    else if !((dictFind d "homeworks").getD PyVal.none).isList then
      .error (.typeError "homeworks должен быть списком.")
    else if !hasKey d "current_date" then
      .error (.keyError "Отсутствует ключ \"current_date\" в ответе API.")
    else if !((dictFind d "current_date").getD PyVal.none).isInt then
      .error (.typeError "current_date должен быть целым числом.")
    else
      .ok ()
  | _ => .error (.typeError "Ответ API должен быть словарём.")

/-- `status in HOMEWORK_VERDICTS`: dictionary key membership hashes the
candidate first, so an unhashable status value (a list or a dict) raises
`TypeError: unhashable type` before any key comparison; a hashable non-string
value is simply not a key of the table. -/
def verdictsContain (status : PyVal) : Except PyErr Bool :=
  match status with
  | .list _ => .error (.typeError "unhashable type: \x27list\x27")
  | .dict _ => .error (.typeError "unhashable type: \x27dict\x27")
  | .str s => .ok (HOMEWORK_VERDICTS.find? (fun p => p.1 == s)).isSome
  | _ => .ok false

/-- `parse_status`: require the `homework_name` key, then the `status` key,
then membership of the status in `HOMEWORK_VERDICTS` (whose hashing raises
`TypeError` on unhashable statuses), and produce the formatted notification
string. -/
def parse_status (homework : PyVal) : Except PyErr String :=
  match pyContainsStr homework "homework_name" with
  | .error e => .error e
  | .ok hasName =>
    if !hasName then
      .error (.keyError "Отсутствует ключ \"homework_name\" в homework.")
    else
      match pyContainsStr homework "status" with
      | .error e => .error e
      | .ok hasStatus =>
        if !hasStatus then
          .error (.keyError "Отсутствует ключ \"status\" в homework.")
        else
          match pyGetItem homework "status" with
          | .error e => .error e
          | .ok status =>
            match verdictsContain status with
            | .error e => .error e
            | .ok isMember =>
              if !isMember then
                .error (.valueError ("Неизвестный статус: " ++ pyStr status ++ "."))
              else
                match pyGetItem homework "homework_name" with
                | .error e => .error e
                | .ok homework_name =>
                  .ok ("Изменился статус проверки работы \"" ++ pyStr homework_name
                        ++ "\". " ++ (verdictOf status).getD "")

/-- The fixed message used when the `homeworks` sequence is empty. -/
def NO_NEW_STATUS : String := "Нет новых статусов домашних работ."

/-- The prefix of every error-report message built in the handler of `main`. -/
def FAILURE_PREFIX : String := "Сбой в работе программы: "

/-- The process-local state of `main`: the timestamp cursor and the last
successfully delivered message (`None` at startup). -/
structure BotState where
  timestamp : Int
  last_message : Option String
deriving DecidableEq

/-- Outcome of a `send_message` call, decided by the messaging channel: either
success or a telebot `ApiException` with its description. -/
inductive SendResult where
  | ok
  | apiError (desc : String)
deriving DecidableEq

/-- The external world of one loop iteration: what the HTTP transport returns
for the fetch, and what the messaging channel does if a send is attempted. -/
structure IterEnv where
  http : HttpResult
  send : SendResult

/-- Result of running the loop body once: the new state, the exception that
escaped the body (if any — it terminates the loop), the messages successfully
delivered, and the deliveries attempted. -/
structure IterResult where
  state : BotState
  crashed : Option PyErr
  sent : List String
  attempted : List String

/-- The `try` block of the loop body up to the derived message: fetch, validate,
read `homeworks`, and either parse the record at index 0 or use the fixed
no-new-status message; returns the response together with the message. -/
def tryBlockMessage (timestamp : Int) (http : HttpResult) :
    Except PyErr (PyVal × String) :=
  match get_api_answer timestamp http with
  | .error e => .error e
  | .ok response =>
    match check_response response with
    | .error e => .error e
    | .ok _ =>
      match pyGetItem response "homeworks" with
      | .error e => .error e
      | .ok homeworks =>
        if pyTruthy homeworks then
          match pyIndex homeworks 0 with
          | .error e => .error e
          | .ok hw0 =>
            match parse_status hw0 with
            | .error e => .error e
            | .ok message => .ok (response, message)
        else
          .ok (response, NO_NEW_STATUS)

/-- One iteration of the `while True` body of `main`: on a derived message that
differs from `last_message`, attempt delivery — an `ApiException` there is
caught and logged, otherwise `last_message` and the cursor are updated; on an
exception from the `try` block, build the error report, and if it differs from
`last_message` send it — a failure of that unguarded send escapes the body. -/
def loop_body (s : BotState) (env : IterEnv) : IterResult :=
  match tryBlockMessage s.timestamp env.http with
  | .ok (response, message) =>
    if s.last_message ≠ some message then
      match env.send with
      | .apiError _ =>
        { state := s, crashed := Option.none, sent := [], attempted := [message] }
      | .ok =>
        { state := { timestamp := pyGetD response "current_date" s.timestamp,
                     last_message := some message },
          crashed := Option.none, sent := [message], attempted := [message] }
    else
      { state := s, crashed := Option.none, sent := [], attempted := [] }
  | .error e =>
    let error_message := FAILURE_PREFIX ++ errStr e
    if some error_message ≠ s.last_message then
      match env.send with
      | .ok =>
        { state := { timestamp := s.timestamp, last_message := some error_message },
          crashed := Option.none, sent := [error_message], attempted := [error_message] }
      | .apiError d =>
        { state := s, crashed := some (.apiException d), sent := [],
          attempted := [error_message] }
    else
      { state := s, crashed := Option.none, sent := [], attempted := [] }

/-- Run the loop over a list of per-iteration environments, stopping when an
exception escapes the body; returns the final state and all messages
successfully delivered, in order. -/
def runIters (s : BotState) : List IterEnv → BotState × List String
  | [] => (s, [])
  | e :: rest =>
    let r := loop_body s e
    match r.crashed with
    | some _ => (r.state, r.sent)
    | Option.none =>
      ((runIters r.state rest).1, r.sent ++ (runIters r.state rest).2)

/-- Outcome of the startup section of `main`: either the process exits (with
the critical log line and the `sys.exit` message, a nonzero exit, before any
network call), or the loop is entered with the initial state. -/
inductive StartupResult where
  | exited (critical_log : String) (exit_message : String)
  | entered (st : BotState)
deriving DecidableEq

/-- The startup section of `main`: check the tokens, exit on any missing one,
otherwise enter the loop with cursor `now` and no last message. -/
def main_startup (env : Environ) (now : Int) : StartupResult :=
  let missing_tokens := check_tokens env
  if missing_tokens ≠ [] then
    .exited ("Отсутствуют обязательные переменные окружения: "
              ++ String.intercalate ", " missing_tokens ++ ".")
       "Программа остановлена из-за отсутствия переменных окружения."
  else
    .entered { timestamp := now, last_message := Option.none }

/-- Consecutive deduplication of a message stream against an initial last
value: the sublist of messages that differ from their predecessor. -/
def dedupConsecutive : Option String → List String → List String
  | _, [] => []
  | last, m :: rest =>
    if some m = last then dedupConsecutive last rest
    else m :: dedupConsecutive (some m) rest

/-- A well-shaped API response with the given homework records and
`current_date`. -/
def mkResp (hw : List PyVal) (n : Int) : PyVal :=
  PyVal.dict [("homeworks", PyVal.list hw), ("current_date", PyVal.int n)]

/-- An iteration environment whose fetch fails at the transport level with the
given description and whose send succeeds. -/
def errorEnv (desc : String) : IterEnv :=
  { http := .transportError desc, send := .ok }

/-- The error-report text produced by a transport failure with description
`desc`. -/
def transportMsg (desc : String) : String :=
  FAILURE_PREFIX ++ ("Ошибка соединения: " ++ desc ++ ".")

theorem pyFalsyStr_iff (v : Option String) :
    pyFalsyStr v = true ↔ (v = Option.none ∨ v = some "") := by
  cases v <;> simp [pyFalsyStr]

theorem check_response_ok_then (v : PyVal) (h : check_response v = .ok ()) :
    ∃ d, v = .dict d
      ∧ (∃ hw, dictFind d "homeworks" = some (PyVal.list hw))
      ∧ (∃ n, dictFind d "current_date" = some (PyVal.int n)) := by
  cases v with
  | dict d =>
    simp only [check_response] at h
    split at h
    · exact Except.noConfusion h
    · split at h
      · exact Except.noConfusion h
      · split at h
        · exact Except.noConfusion h
        · split at h
          · exact Except.noConfusion h
          · rename_i h1 h2 h3 h4
            simp only [Bool.not_eq_true, Bool.not_eq_true', Bool.not_eq_false'] at h1 h2 h3 h4
            have h1s : dictFind d "homeworks" ≠ Option.none := by
              simpa [hasKey] using h1
            have h3s : dictFind d "current_date" ≠ Option.none := by
              simpa [hasKey] using h3
            rcases Option.ne_none_iff_exists'.mp h1s with ⟨hw, hf⟩
            rcases Option.ne_none_iff_exists'.mp h3s with ⟨c, hc⟩
            rw [hf] at h2
            rw [hc] at h4
            simp only [Option.getD_some] at h2 h4
            cases hw with
            | list l =>
              cases c with
              | int n => exact ⟨d, rfl, ⟨l, hf⟩, ⟨n, hc⟩⟩
              | none => exact absurd h4 (by simp [PyVal.isInt])
              | str s => exact absurd h4 (by simp [PyVal.isInt])
              | list l2 => exact absurd h4 (by simp [PyVal.isInt])
              | dict d2 => exact absurd h4 (by simp [PyVal.isInt])
            | none => exact absurd h2 (by simp [PyVal.isList])
            | int n => exact absurd h2 (by simp [PyVal.isList])
            | str s => exact absurd h2 (by simp [PyVal.isList])
            | dict d2 => exact absurd h2 (by simp [PyVal.isList])
  | none => exact Except.noConfusion h
  | int n => exact Except.noConfusion h
  | str s => exact Except.noConfusion h
  | list l => exact Except.noConfusion h

theorem check_response_ok_of (d : List (String × PyVal)) (hw : List PyVal) (n : Int)
    (hf : dictFind d "homeworks" = some (PyVal.list hw))
    (hc : dictFind d "current_date" = some (PyVal.int n)) :
    check_response (.dict d) = .ok () := by
  simp [check_response, hasKey, hf, hc, PyVal.isList, PyVal.isInt]

theorem tryBlockMessage_ok_resp (t : Int) (http : HttpResult) (resp : PyVal)
    (m : String) (h : tryBlockMessage t http = .ok (resp, m)) :
    check_response resp = .ok () := by
  simp only [tryBlockMessage] at h
  split at h
  · exact Except.noConfusion h
  · rename_i response hga
    split at h
    · exact Except.noConfusion h
    · rename_i u hcr
      split at h
      · exact Except.noConfusion h
      · rename_i homeworks hget
        split at h
        · split at h
          · exact Except.noConfusion h
          · rename_i hw0 hidx
            split at h
            · exact Except.noConfusion h
            · rename_i msg hps
              rw [Except.ok.injEq, Prod.mk.injEq] at h
              rw [← h.1]
              cases u
              exact hcr
        · rw [Except.ok.injEq, Prod.mk.injEq] at h
          rw [← h.1]
          cases u
          exact hcr

theorem pyGetD_eq (d : List (String × PyVal)) (k : String) (n dflt : Int)
    (h : dictFind d k = some (PyVal.int n)) :
    pyGetD (.dict d) k dflt = n := by
  simp [pyGetD, h]

/-- Claim C4: for every input value, `check_response` performs its checks in
the fixed order (top-level is a mapping, `homeworks` key present, `homeworks`
is a sequence, `current_date` key present, `current_date` is an integer) and
raises on the first violated check with the distinct error kind for that check
(`TypeError` for type violations, `KeyError` for absent keys); it fully passes
exactly when all five checks hold. -/
theorem check_response_check_order :
    (∀ v : PyVal, v.isDict = false →
        check_response v = .error (.typeError "Ответ API должен быть словарём."))
  ∧ (∀ d, hasKey d "homeworks" = false →
        check_response (.dict d) =
          .error (.keyError "Отсутствует ключ \"homeworks\" в ответе API."))
  ∧ (∀ d hw, dictFind d "homeworks" = some hw → hw.isList = false →
        check_response (.dict d) = .error (.typeError "homeworks должен быть списком."))
  ∧ (∀ d hw, dictFind d "homeworks" = some (PyVal.list hw) →
        hasKey d "current_date" = false →
        check_response (.dict d) =
          .error (.keyError "Отсутствует ключ \"current_date\" в ответе API."))
  ∧ (∀ d hw c, dictFind d "homeworks" = some (PyVal.list hw) →
        dictFind d "current_date" = some c → c.isInt = false →
        check_response (.dict d) =
          .error (.typeError "current_date должен быть целым числом."))
  ∧ (∀ v : PyVal, check_response v = .ok () ↔
        ∃ d, v = .dict d
          ∧ (∃ hw, dictFind d "homeworks" = some (PyVal.list hw))
          ∧ (∃ n, dictFind d "current_date" = some (PyVal.int n))) := by
  refine ⟨?_, ?_, ?_, ?_, ?_, ?_⟩
  · intro v h
    cases v <;> first | rfl | simp [PyVal.isDict] at h
  · intro d h
    simp [check_response, h]
  · intro d hw h1 h2
    simp [check_response, hasKey, h1, h2]
  · intro d hw h1 h2
    have hk1 : hasKey d "homeworks" = true := by simp [hasKey, h1]
    simp [check_response, hk1, h1, h2, PyVal.isList]
  · intro d hw c h1 h2 h3
    simp [check_response, hasKey, h1, h2, h3, PyVal.isList]
  · intro v
    constructor
    · exact check_response_ok_then v
    · rintro ⟨d, rfl, ⟨hw, hf⟩, ⟨n, hc⟩⟩
      exact check_response_ok_of d hw n hf hc

/-- Witness for C4: the empty dictionary fails the `homeworks` presence check
with exactly the specified `KeyError`. -/
theorem check_response_check_order_witness :
    check_response (.dict []) =
      .error (.keyError "Отсутствует ключ \"homeworks\" в ответе API.") :=
  check_response_check_order.2.1 [] rfl

/-- Counterexample to C5: a record whose status is a JSON array lies outside
{approved, reviewing, rejected}, yet `parse_status` raises the membership
test's unhashable-type `TypeError` — not a `ValueError` naming the offending
code. -/
theorem parse_status_unhashable_status :
    parse_status (.dict [("homework_name", PyVal.str "x"),
                         ("status", PyVal.list [])]) =
      .error (.typeError "unhashable type: \x27list\x27")
    ∧ ∀ msg, parse_status (.dict [("homework_name", PyVal.str "x"),
                         ("status", PyVal.list [])]) ≠ .error (.valueError msg) := by
  refine ⟨rfl, ?_⟩
  intro msg h
  rw [show parse_status (.dict [("homework_name", PyVal.str "x"),
        ("status", PyVal.list [])]) =
      .error (.typeError "unhashable type: \x27list\x27") from rfl] at h
  exact PyErr.noConfusion (Except.error.inj h)

/-- Claim C5 (amended): for every homework record, `parse_status` raises a
`KeyError` naming `homework_name` when that key is absent, else a `KeyError`
naming `status` when that key is absent (existence checks strictly before
value checks); else, when the status value is unhashable (a list or a
mapping), the membership test itself raises a `TypeError` (unhashable type);
else a `ValueError` naming the offending code when the hashable status is
outside the verdict table; otherwise it returns exactly the formatted
notification string with the verdict text looked up from the fixed
three-entry table. -/
theorem parse_status_characterization :
    (∀ d, hasKey d "homework_name" = false →
        parse_status (.dict d) =
          .error (.keyError "Отсутствует ключ \"homework_name\" в homework."))
  ∧ (∀ d, hasKey d "homework_name" = true → hasKey d "status" = false →
        parse_status (.dict d) =
          .error (.keyError "Отсутствует ключ \"status\" в homework."))
  ∧ (∀ d l, hasKey d "homework_name" = true →
        dictFind d "status" = some (PyVal.list l) →
        parse_status (.dict d) = .error (.typeError "unhashable type: \x27list\x27"))
  ∧ (∀ d dd, hasKey d "homework_name" = true →
        dictFind d "status" = some (PyVal.dict dd) →
        parse_status (.dict d) = .error (.typeError "unhashable type: \x27dict\x27"))
  ∧ (∀ d sv, hasKey d "homework_name" = true → dictFind d "status" = some sv →
        verdictsContain sv = .ok false →
        parse_status (.dict d) =
          .error (.valueError ("Неизвестный статус: " ++ pyStr sv ++ ".")))
  ∧ (∀ d sv verdict hv, dictFind d "homework_name" = some hv →
        dictFind d "status" = some sv → verdictOf sv = some verdict →
        parse_status (.dict d) =
          .ok ("Изменился статус проверки работы \"" ++ pyStr hv ++ "\". " ++ verdict))
  ∧ (∀ s : String, verdictOf (PyVal.str s) = Option.none ↔
        ("approved" ≠ s ∧ "reviewing" ≠ s ∧ "rejected" ≠ s))
  ∧ (verdictOf (PyVal.str "approved") =
        some "Работа проверена: ревьюеру всё понравилось. Ура!"
      ∧ verdictOf (PyVal.str "reviewing") = some "Работа взята на проверку ревьюером."
      ∧ verdictOf (PyVal.str "rejected") =
        some "Работа проверена: у ревьюера есть замечания.") := by
  refine ⟨?_, ?_, ?_, ?_, ?_, ?_, ?_, rfl, rfl, rfl⟩
  · intro d h
    simp [parse_status, pyContainsStr, h]
  · intro d h1 h2
    simp [parse_status, pyContainsStr, h1, h2]
  · intro d l h1 h2
    have hk2 : hasKey d "status" = true := by simp [hasKey, h2]
    simp [parse_status, pyContainsStr, h1, hk2, pyGetItem, h2, verdictsContain]
  · intro d dd h1 h2
    have hk2 : hasKey d "status" = true := by simp [hasKey, h2]
    simp [parse_status, pyContainsStr, h1, hk2, pyGetItem, h2, verdictsContain]
  · intro d sv h1 h2 h3
    have hk2 : hasKey d "status" = true := by simp [hasKey, h2]
    simp [parse_status, pyContainsStr, h1, hk2, pyGetItem, h2, h3]
  · intro d sv verdict hv h1 h2 h3
    have hk1 : hasKey d "homework_name" = true := by simp [hasKey, h1]
    have hk2 : hasKey d "status" = true := by simp [hasKey, h2]
    have hcon : verdictsContain sv = .ok true := by
      cases sv with
      | str s =>
        simp only [verdictsContain]
        cases hf : HOMEWORK_VERDICTS.find? (fun p => p.1 == s) with
        | none => simp [verdictOf, hf] at h3
        | some p => rfl
      | none => exact absurd h3 (by simp [verdictOf])
      | int n => exact absurd h3 (by simp [verdictOf])
      | list l => exact absurd h3 (by simp [verdictOf])
      | dict dd => exact absurd h3 (by simp [verdictOf])
    simp [parse_status, pyContainsStr, hk1, hk2, pyGetItem, h1, h2, hcon, h3]
  · intro s
    by_cases h1 : s = "approved"
    · subst h1; decide
    · by_cases h2 : s = "reviewing"
      · subst h2; decide
      · by_cases h3 : s = "rejected"
        · subst h3; decide
        · have e1 : (("approved" : String) == s) = false :=
            beq_eq_false_iff_ne.mpr (Ne.symm h1)
          have e2 : (("reviewing" : String) == s) = false :=
            beq_eq_false_iff_ne.mpr (Ne.symm h2)
          have e3 : (("rejected" : String) == s) = false :=
            beq_eq_false_iff_ne.mpr (Ne.symm h3)
          simp [verdictOf, HOMEWORK_VERDICTS, List.find?, e1, e2, e3,
                Ne.symm h1, Ne.symm h2, Ne.symm h3]

/-- Witness for C5 (amended): a record with an unknown string status code is
rejected with the `ValueError` naming that code. -/
theorem parse_status_characterization_witness :
    parse_status (.dict [("homework_name", PyVal.str "x"),
                         ("status", PyVal.str "unknown_code")]) =
      .error (.valueError ("Неизвестный статус: " ++ pyStr (PyVal.str "unknown_code") ++ ".")) :=
  parse_status_characterization.2.2.2.2.1
    [("homework_name", PyVal.str "x"), ("status", PyVal.str "unknown_code")]
    (PyVal.str "unknown_code") rfl rfl rfl
/-- Claim C6: `get_api_answer` raises `APIResponseError` carrying the status
code and body text on any HTTP status other than 200, raises `APIRequestError`
carrying the cause description on any transport failure, returns the parsed
JSON body unvalidated on HTTP 200, and never reports a non-200 response as a
request error. -/
theorem get_api_answer_characterization :
    (∀ t desc, get_api_answer t (.transportError desc) =
        .error (.apiRequestError ("Ошибка соединения: " ++ desc ++ ".")))
  ∧ (∀ t st txt j, st ≠ 200 → get_api_answer t (.response st txt j) =
        .error (.apiResponseError ("Ошибка запроса: " ++ toString st ++ " — " ++ txt ++ ".")))
  ∧ (∀ t txt v, get_api_answer t (.response 200 txt (.ok v)) = .ok v)
  ∧ (∀ t st txt j m, st ≠ 200 →
        get_api_answer t (.response st txt j) ≠ .error (.apiRequestError m)) := by
  refine ⟨fun t desc => rfl, ?_, fun t txt v => rfl, ?_⟩
  · intro t st txt j h
    simp [get_api_answer, h]
  · intro t st txt j m h
    simp [get_api_answer, h]

/-- Witness for C6: a 404 response with body text is surfaced as an
`APIResponseError` carrying both. -/
theorem get_api_answer_characterization_witness :
    get_api_answer 0 (.response 404 "Not Found" (.ok PyVal.none)) =
      .error (.apiResponseError
        ("Ошибка запроса: " ++ toString (404 : Int) ++ " — " ++ "Not Found" ++ ".")) :=
  get_api_answer_characterization.2.1 0 404 "Not Found" (.ok PyVal.none) (by decide)

/-- Claim C8: `check_tokens` returns exactly the list of names among the three
required environment variables whose value is absent or empty (it is a pure
function of the environment snapshot, so it mutates nothing); whenever that
list is non-empty, startup logs one critical line listing exactly the missing
names and exits with a non-zero status before the loop (and hence before any
network call); otherwise the loop is entered. -/
theorem check_tokens_characterization :
    (∀ v : Option String, pyFalsyStr v = true ↔ (v = Option.none ∨ v = some ""))
  ∧ (∀ env : Environ, check_tokens env =
        (if pyFalsyStr env.PRACTICUM_TOKEN then ["PRACTICUM_TOKEN"] else [])
        ++ (if pyFalsyStr env.TELEGRAM_TOKEN then ["TELEGRAM_TOKEN"] else [])
        ++ (if pyFalsyStr env.TELEGRAM_CHAT_ID then ["TELEGRAM_CHAT_ID"] else []))
  ∧ (∀ env now, check_tokens env ≠ [] →
        main_startup env now = .exited
          ("Отсутствуют обязательные переменные окружения: "
            ++ String.intercalate ", " (check_tokens env) ++ ".")
          "Программа остановлена из-за отсутствия переменных окружения.")
  ∧ (∀ env now, check_tokens env = [] →
        main_startup env now = .entered ⟨now, Option.none⟩) := by
  refine ⟨pyFalsyStr_iff, ?_, ?_, ?_⟩
  · intro env
    by_cases hp : pyFalsyStr env.PRACTICUM_TOKEN = true <;>
      by_cases ht : pyFalsyStr env.TELEGRAM_TOKEN = true <;>
      by_cases hc : pyFalsyStr env.TELEGRAM_CHAT_ID = true <;>
      simp [check_tokens, required_vars, List.filter, hp, ht, hc]
  · intro env now h
    simp [main_startup, h]
  · intro env now h
    simp [main_startup, h]

/-- Witness for C8: with `TELEGRAM_TOKEN` unset and the other two variables
set, startup exits with the critical log naming exactly the missing name. -/
theorem check_tokens_characterization_witness :
    main_startup ⟨some "p", Option.none, some "c"⟩ 7 = .exited
      ("Отсутствуют обязательные переменные окружения: "
        ++ String.intercalate ", " (check_tokens ⟨some "p", Option.none, some "c"⟩) ++ ".")
      "Программа остановлена из-за отсутствия переменных окружения." :=
  check_tokens_characterization.2.2.1 ⟨some "p", Option.none, some "c"⟩ 7 (by decide)

/-- Claim C9: `check_response` validates only the top-level shape — any
mapping whose `homeworks` value is a sequence and whose `current_date` value
is an integer passes, whatever the records inside `homeworks` are — and the
message-derivation step reads only the record at index 0. -/
theorem check_response_top_level_only :
    (∀ (d : List (String × PyVal)) (hw : List PyVal) (n : Int),
        dictFind d "homeworks" = some (PyVal.list hw) →
        dictFind d "current_date" = some (PyVal.int n) →
        check_response (.dict d) = .ok ())
  ∧ (∀ (t : Int) (txt : String) (h : PyVal) (r : List PyVal) (n : Int),
        tryBlockMessage t (.response 200 txt (.ok (mkResp (h :: r) n))) =
          (parse_status h).map (fun m => (mkResp (h :: r) n, m))) := by
  refine ⟨check_response_ok_of, ?_⟩
  intro t txt h r n
  have hok : check_response (mkResp (h :: r) n) = .ok () := by
    apply check_response_ok_of _ (h :: r) n <;> rfl
  simp only [tryBlockMessage, get_api_answer, mkResp] at *
  simp [hok, pyGetItem, dictFind, List.find?, pyTruthy, pyIndex]
  cases parse_status h <;> simp [Except.map]

/-- Witness for C9: a response whose records are an integer and `None` — both
unusable by `parse_status` — still passes `check_response`. -/
theorem check_response_top_level_only_witness :
    check_response (.dict [("homeworks", PyVal.list [PyVal.int 1, PyVal.none]),
                           ("current_date", PyVal.int 7)]) = .ok () :=
  check_response_top_level_only.1
    [("homeworks", PyVal.list [PyVal.int 1, PyVal.none]), ("current_date", PyVal.int 7)]
    [PyVal.int 1, PyVal.none] 7 rfl rfl

/-- Claim C10: at startup `last_message` is the `None` sentinel, which differs
from every candidate string, so on the first iteration every derived message
is attempted — including the fixed no-new-status message when the `homeworks`
sequence is empty. -/
theorem first_iteration_always_attempts :
    (∀ (env : Environ) (now : Int) (st : BotState),
        main_startup env now = .entered st →
        st.last_message = Option.none ∧ st.timestamp = now)
  ∧ (∀ (m : String), (Option.none : Option String) ≠ some m)
  ∧ (∀ (now : Int) (env : IterEnv) (resp : PyVal) (m : String),
        tryBlockMessage now env.http = .ok (resp, m) →
        (loop_body ⟨now, Option.none⟩ env).attempted = [m])
  ∧ (∀ (t n : Int) (txt : String),
        tryBlockMessage t (.response 200 txt (.ok (mkResp [] n))) =
          .ok (mkResp [] n, NO_NEW_STATUS)) := by
  refine ⟨?_, fun m h => Option.noConfusion h, ?_, ?_⟩
  · intro env now st h
    simp only [main_startup] at h
    split at h
    · exact StartupResult.noConfusion h
    · cases h
      exact ⟨rfl, rfl⟩
  · intro now env resp m h
    simp only [loop_body, h]
    have hne : (Option.none : Option String) ≠ some m := fun hh => Option.noConfusion hh
    cases hsend : env.send <;> simp [hne]
  · intro t n txt
    have hok : check_response (mkResp [] n) = .ok () := by
      apply check_response_ok_of _ [] n <;> rfl
    simp only [mkResp] at hok
    simp [tryBlockMessage, get_api_answer, hok, pyGetItem, mkResp, dictFind,
          List.find?, pyTruthy]

/-- Witness for C10: from the initial state, an empty-homeworks response leads
to an attempted delivery of the fixed no-new-status message. -/
theorem first_iteration_always_attempts_witness :
    (loop_body ⟨0, Option.none⟩
        ⟨.response 200 "" (.ok (mkResp [] 2000)), .ok⟩).attempted = [NO_NEW_STATUS] :=
  first_iteration_always_attempts.2.2.1 0
    ⟨.response 200 "" (.ok (mkResp [] 2000)), .ok⟩ (mkResp [] 2000) NO_NEW_STATUS rfl

/-- Claim C1: the cursor is written exactly on an iteration whose derived
message differs from `last_message` and whose delivery succeeds — there it is
set to the validated response's `current_date` (an integer guaranteed by
`check_response`) — and it is left unchanged on delivery failure, on a
repeated identical message, and on every error-handling path. -/
theorem cursor_update_characterization :
    ∀ (s : BotState) (env : IterEnv),
      (∀ resp m, tryBlockMessage s.timestamp env.http = .ok (resp, m) →
          s.last_message ≠ some m → env.send = .ok →
          ∃ d n, resp = .dict d
            ∧ dictFind d "current_date" = some (PyVal.int n)
            ∧ (loop_body s env).state.timestamp = n
            ∧ (loop_body s env).sent = [m]
            ∧ (loop_body s env).state.last_message = some m)
    ∧ (∀ dsc, env.send = .apiError dsc →
          (loop_body s env).state.timestamp = s.timestamp)
    ∧ (∀ resp m, tryBlockMessage s.timestamp env.http = .ok (resp, m) →
          s.last_message = some m →
          (loop_body s env).state = s ∧ (loop_body s env).sent = [])
    ∧ (∀ e, tryBlockMessage s.timestamp env.http = .error e →
          (loop_body s env).state.timestamp = s.timestamp)
    ∧ ((loop_body s env).state.timestamp ≠ s.timestamp →
          ∃ resp m, tryBlockMessage s.timestamp env.http = .ok (resp, m)
            ∧ s.last_message ≠ some m ∧ env.send = .ok
            ∧ (loop_body s env).sent = [m]) := by
  intro s env
  refine ⟨?_, ?_, ?_, ?_, ?_⟩
  · intro resp m htb hne hsend
    rcases check_response_ok_then resp (tryBlockMessage_ok_resp _ _ _ _ htb)
      with ⟨d, rfl, _, ⟨n, hc⟩⟩
    refine ⟨d, n, rfl, hc, ?_⟩
    simp [loop_body, htb, hne, hsend, pyGetD_eq d "current_date" n s.timestamp hc]
  · intro dsc hsend
    simp only [loop_body]
    split
    · rename_i p _
      split
      · rw [hsend]
      · rfl
    · split
      · rw [hsend]
      · rfl
  · intro resp m htb heq
    simp [loop_body, htb, heq]
  · intro e htb
    simp only [loop_body, htb]
    split
    · cases hsend : env.send <;> simp [hsend]
    · rfl
  · intro hts
    rcases htb : tryBlockMessage s.timestamp env.http with e | ⟨resp, m⟩
    · exfalso
      apply hts
      simp only [loop_body, htb]
      split
      · cases hsend : env.send <;> simp [hsend]
      · rfl
    · by_cases hne : s.last_message = some m
      · exfalso
        apply hts
        simp [loop_body, htb, hne]
      · cases hsend : env.send with
        | ok =>
          refine ⟨resp, m, rfl, hne, rfl, ?_⟩
          simp [loop_body, htb, hne, hsend]
        | apiError dsc =>
          exfalso
          apply hts
          simp [loop_body, htb, hne, hsend]

/-- Witness for C1: a successful delivery of the no-new-status message from
the initial state moves the cursor to the response's `current_date`. -/
theorem cursor_update_characterization_witness :
    ∃ d n, mkResp [] 2000 = PyVal.dict d
      ∧ dictFind d "current_date" = some (PyVal.int n)
      ∧ (loop_body ⟨1, Option.none⟩
          ⟨.response 200 "" (.ok (mkResp [] 2000)), .ok⟩).state.timestamp = n
      ∧ (loop_body ⟨1, Option.none⟩
          ⟨.response 200 "" (.ok (mkResp [] 2000)), .ok⟩).sent = [NO_NEW_STATUS]
      ∧ (loop_body ⟨1, Option.none⟩
          ⟨.response 200 "" (.ok (mkResp [] 2000)), .ok⟩).state.last_message =
          some NO_NEW_STATUS :=
  (cursor_update_characterization ⟨1, Option.none⟩
      ⟨.response 200 "" (.ok (mkResp [] 2000)), .ok⟩).1
    (mkResp [] 2000) NO_NEW_STATUS rfl (by decide) rfl

/-- Counterexample to C2: a transport failure followed by a delivery failure
of the error-report send makes an `ApiException` escape the loop body — the
unguarded `send_message` call in the error handler is not caught, so the
process terminates, contradicting the claim that every such Delivery Error is
caught locally. -/
theorem error_report_send_failure_escapes :
    (loop_body ⟨100, Option.none⟩
        ⟨.transportError "boom", .apiError "tfail"⟩).crashed =
      some (.apiException "tfail") := by
  rfl

/-- Claim C2 (amended): every exception raised inside the try block is caught
by the loop body, and a Delivery Error from the guarded send on the
notification path is caught locally; but a Delivery Error raised while
sending the error-report notification from the error-handling path is not
caught — an exception escapes the body exactly when the try block failed, the
error report differs from `last_message`, and that send fails. -/
theorem crash_iff_error_path_send_failure :
    ∀ (s : BotState) (env : IterEnv),
      ((loop_body s env).crashed ≠ Option.none ↔
        ∃ e dsc, tryBlockMessage s.timestamp env.http = .error e
          ∧ env.send = .apiError dsc
          ∧ some (FAILURE_PREFIX ++ errStr e) ≠ s.last_message)
    ∧ (∀ resp m, tryBlockMessage s.timestamp env.http = .ok (resp, m) →
        (loop_body s env).crashed = Option.none) := by
  intro s env
  constructor
  · rcases htb : tryBlockMessage s.timestamp env.http with e | ⟨resp, m⟩
    · simp only [loop_body, htb]
      by_cases hd : some (FAILURE_PREFIX ++ errStr e) ≠ s.last_message
      · rw [if_pos hd]
        cases hsend : env.send with
        | ok => simp [hsend]
        | apiError dsc =>
          simp only [hsend]
          constructor
          · intro _
            exact ⟨e, dsc, rfl, rfl, hd⟩
          · intro _
            simp
      · rw [if_neg hd]
        push_neg at hd
        simp [Except.error.injEq, hd]
    · simp only [loop_body, htb]
      by_cases hne : s.last_message ≠ some m
      · rw [if_pos hne]
        cases hsend : env.send <;> simp
      · rw [if_neg hne]
        simp
  · intro resp m htb
    simp only [loop_body, htb]
    by_cases hne : s.last_message ≠ some m
    · rw [if_pos hne]
      cases hsend : env.send <;> rfl
    · rw [if_neg hne]

/-- Witness for C2 (amended): an iteration whose try block succeeds never
lets an exception escape the body. -/
theorem crash_iff_error_path_send_failure_witness :
    (loop_body ⟨0, Option.none⟩
        ⟨.response 200 "" (.ok (mkResp [] 5)), .ok⟩).crashed = Option.none :=
  (crash_iff_error_path_send_failure ⟨0, Option.none⟩
      ⟨.response 200 "" (.ok (mkResp [] 5)), .ok⟩).2 (mkResp [] 5) NO_NEW_STATUS rfl

/-- Counterexample to C3: a successful iteration (no escaped exception, one
message delivered) whose response carries a `current_date` smaller than the
cursor leaves the cursor strictly smaller than before — the cursor is not
monotonically non-decreasing across successful iterations. -/
theorem cursor_decrease_on_smaller_current_date :
    (loop_body ⟨1000, Option.none⟩
        ⟨.response 200 "" (.ok (mkResp [] 5)), .ok⟩).crashed = Option.none
    ∧ (loop_body ⟨1000, Option.none⟩
        ⟨.response 200 "" (.ok (mkResp [] 5)), .ok⟩).sent = [NO_NEW_STATUS]
    ∧ (loop_body ⟨1000, Option.none⟩
        ⟨.response 200 "" (.ok (mkResp [] 5)), .ok⟩).state.timestamp < 1000 := by
  refine ⟨rfl, rfl, by decide⟩

/-- Claim C3 (amended): on a successful iteration the cursor is set to the
validated response's `current_date` (and left unchanged on every other path),
so it is non-decreasing across successful iterations provided each validated
response's `current_date` is at least the current cursor; the code itself does
not enforce that proviso. -/
theorem cursor_monotone_of_current_date_ge :
    ∀ (s : BotState) (env : IterEnv),
      (∀ (d : List (String × PyVal)) (m : String) (n : Int),
          tryBlockMessage s.timestamp env.http = .ok (.dict d, m) →
          dictFind d "current_date" = some (PyVal.int n) →
          s.timestamp ≤ n) →
      s.timestamp ≤ (loop_body s env).state.timestamp := by
  intro s env hyp
  rcases htb : tryBlockMessage s.timestamp env.http with e | ⟨resp, m⟩
  · simp only [loop_body, htb]
    split
    · cases hsend : env.send <;> simp [hsend]
    · simp
  · rcases check_response_ok_then resp (tryBlockMessage_ok_resp _ _ _ _ htb)
      with ⟨d, rfl, _, ⟨n, hc⟩⟩
    simp only [loop_body, htb]
    by_cases hne : s.last_message ≠ some m
    · rw [if_pos hne]
      cases hsend : env.send with
      | ok =>
        simp only
        rw [pyGetD_eq d "current_date" n s.timestamp hc]
        exact hyp d m n htb hc
      | apiError dsc => simp
    · rw [if_neg hne]

/-- Witness for C3 (amended): with a response whose `current_date` (2000) is
at least the cursor (1000), the cursor does not decrease. -/
theorem cursor_monotone_of_current_date_ge_witness :
    (1000 : Int) ≤ (loop_body ⟨1000, Option.none⟩
        ⟨.response 200 "" (.ok (mkResp [] 2000)), .ok⟩).state.timestamp := by
  apply cursor_monotone_of_current_date_ge ⟨1000, Option.none⟩
    ⟨.response 200 "" (.ok (mkResp [] 2000)), .ok⟩
  intro d m n htb hc
  rw [show tryBlockMessage (1000 : Int) (.response 200 "" (.ok (mkResp [] 2000))) =
        .ok (mkResp [] 2000, NO_NEW_STATUS) from rfl] at htb
  rw [Except.ok.injEq, Prod.mk.injEq] at htb
  obtain ⟨h1, _⟩ := htb
  rw [mkResp] at h1
  cases h1
  simp [dictFind, List.find?] at hc
  show (1000 : Int) ≤ n
  omega

theorem loop_body_errorEnv (dsc : String) (s : BotState) :
    loop_body s (errorEnv dsc) =
      if some (transportMsg dsc) ≠ s.last_message then
        ⟨⟨s.timestamp, some (transportMsg dsc)⟩, Option.none,
          [transportMsg dsc], [transportMsg dsc]⟩
      else ⟨s, Option.none, [], []⟩ := by
  have htb : tryBlockMessage s.timestamp (errorEnv dsc).http =
      .error (.apiRequestError ("Ошибка соединения: " ++ dsc ++ ".")) := rfl
  simp only [loop_body, htb, errStr, transportMsg]
  by_cases hd : some (FAILURE_PREFIX ++ ("Ошибка соединения: " ++ dsc ++ ".")) ≠
      s.last_message
  · rw [if_pos hd, if_pos hd]
    rfl
  · rw [if_neg hd, if_neg hd]

/-- Claim C7: the notify-if-changed step is idempotent — two consecutive
iterations deriving the same candidate message deliver at most one message,
and when the first delivery succeeds the second iteration is a complete no-op
— and over any stream of error-report iterations the messages delivered are
exactly the consecutive deduplication of the error texts: one per distinct new
text, zero per identical repeat. -/
theorem notify_dedup_idempotent :
    (∀ (s : BotState) (env1 env2 : IterEnv) (r1 r2 : PyVal) (m : String),
        tryBlockMessage s.timestamp env1.http = .ok (r1, m) →
        env1.send = .ok →
        tryBlockMessage (loop_body s env1).state.timestamp env2.http = .ok (r2, m) →
        (loop_body (loop_body s env1).state env2).state = (loop_body s env1).state
        ∧ (loop_body (loop_body s env1).state env2).sent = []
        ∧ (loop_body (loop_body s env1).state env2).attempted = [])
  ∧ (∀ (s : BotState) (env1 env2 : IterEnv) (r1 r2 : PyVal) (m : String),
        tryBlockMessage s.timestamp env1.http = .ok (r1, m) →
        tryBlockMessage (loop_body s env1).state.timestamp env2.http = .ok (r2, m) →
        ((loop_body s env1).sent ++ (loop_body (loop_body s env1).state env2).sent).length
          ≤ 1)
  ∧ (∀ (s : BotState) (descs : List String),
        (runIters s (descs.map errorEnv)).2 =
          dedupConsecutive s.last_message (descs.map transportMsg)) := by
  refine ⟨?_, ?_, ?_⟩
  · intro s env1 env2 r1 r2 m h1 hsend h2
    by_cases hne : s.last_message ≠ some m
    · have e1 : loop_body s env1 =
          ⟨⟨pyGetD r1 "current_date" s.timestamp, some m⟩, Option.none, [m], [m]⟩ := by
        simp [loop_body, h1, hne, hsend]
      rw [e1] at h2 ⊢
      simp [loop_body, h2]
    · push_neg at hne
      have e1 : loop_body s env1 = ⟨s, Option.none, [], []⟩ := by
        simp [loop_body, h1, hne]
      rw [e1] at h2 ⊢
      simp [loop_body, h2, hne]
  · intro s env1 env2 r1 r2 m h1 h2
    by_cases hne : s.last_message ≠ some m
    · cases hsend : env1.send with
      | ok =>
        have e1 : loop_body s env1 =
            ⟨⟨pyGetD r1 "current_date" s.timestamp, some m⟩, Option.none, [m], [m]⟩ := by
          simp [loop_body, h1, hne, hsend]
        rw [e1] at h2 ⊢
        simp [loop_body, h2]
      | apiError dsc =>
        have e1 : loop_body s env1 = ⟨s, Option.none, [], [m]⟩ := by
          simp [loop_body, h1, hne, hsend]
        rw [e1] at h2 ⊢
        cases hsend2 : env2.send with
        | ok => simp [loop_body, h2, hne, hsend2]
        | apiError d2 => simp [loop_body, h2, hne, hsend2]
    · push_neg at hne
      have e1 : loop_body s env1 = ⟨s, Option.none, [], []⟩ := by
        simp [loop_body, h1, hne]
      rw [e1] at h2 ⊢
      simp [loop_body, h2, hne]
  · intro s descs
    induction descs generalizing s with
    | nil => rfl
    | cons dsc rest ih =>
      simp only [List.map_cons, runIters, loop_body_errorEnv]
      by_cases hd : some (transportMsg dsc) ≠ s.last_message
      · rw [if_pos hd, dedupConsecutive]
        rw [if_neg (by simpa [ne_comm] using hd)]
        simp [ih]
      · rw [if_neg hd, dedupConsecutive]
        push_neg at hd
        rw [if_pos hd]
        simpa using ih s

/-- Witness for C7: after a first successful delivery of the no-new-status
message, a second iteration deriving the same message is a complete no-op. -/
theorem notify_dedup_idempotent_witness :
    (loop_body (loop_body ⟨0, Option.none⟩
        ⟨.response 200 "" (.ok (mkResp [] 9)), .ok⟩).state
        ⟨.response 200 "" (.ok (mkResp [] 9)), .ok⟩).state =
      (loop_body ⟨0, Option.none⟩ ⟨.response 200 "" (.ok (mkResp [] 9)), .ok⟩).state
    ∧ (loop_body (loop_body ⟨0, Option.none⟩
        ⟨.response 200 "" (.ok (mkResp [] 9)), .ok⟩).state
        ⟨.response 200 "" (.ok (mkResp [] 9)), .ok⟩).sent = []
    ∧ (loop_body (loop_body ⟨0, Option.none⟩
        ⟨.response 200 "" (.ok (mkResp [] 9)), .ok⟩).state
        ⟨.response 200 "" (.ok (mkResp [] 9)), .ok⟩).attempted = [] :=
  notify_dedup_idempotent.1 ⟨0, Option.none⟩
    ⟨.response 200 "" (.ok (mkResp [] 9)), .ok⟩
    ⟨.response 200 "" (.ok (mkResp [] 9)), .ok⟩
    (mkResp [] 9) (mkResp [] 9) NO_NEW_STATUS rfl rfl rfl
